import Mathlib

/-!
Verification of `zebra/rule_netlink.c` (FRR PBR rule netlink codec and
reconciliation engine) against its natural-language specification.

The embedding models:
  * the rule data model (`struct zebra_pbr_rule`, `struct prefix`),
  * the encoder `netlink_rule_update` (message header + ordered attributes),
  * the synchronizer entry points `kernel_add_pbr_rule` / `kernel_del_pbr_rule`,
  * the notification handler `netlink_rule_change`.

External collaborators that are not part of the supplied source
(`addattr32`/`addattr_l` and `netlink_parse_rtattr` from `zebra/kernel_netlink.c`,
`netlink_talk`, `if_lookup_by_name_per_ns`, `kernel_pbr_rule_del`,
`kernel_pbr_rule_add_del_status`) are modelled from the spec: the attribute
append/parse helpers follow the spec's wire-format section (type-tagged,
variable-length attributes, each independently optional on decode), and the
kernel channel, interface lookup and owner callbacks are taken as parameters.
-/

/-! ## Constants (linux uapi values used by the source) -/

def RTM_NEWRULE : Nat := 32
def RTM_DELRULE : Nat := 33
def AF_INET : Nat := 2
def AF_INET6 : Nat := 10
def FR_ACT_TO_TBL : Nat := 1
def RT_TABLE_UNSPEC : Nat := 0
def FRA_DST : Nat := 1
def FRA_SRC : Nat := 2
def FRA_IFNAME : Nat := 3
def FRA_PRIORITY : Nat := 6
def FRA_TABLE : Nat := 15
def NLM_F_REQUEST : Nat := 1

/-- Netlink 4-byte alignment (`NLMSG_ALIGN` / `RTA_ALIGN`). -/
def alignNl (n : Nat) : Nat := (n + 3) / 4 * 4

/-- Constant `NLMSG_HDRLEN`: aligned size of `struct nlmsghdr`. -/
def NLMSG_HDRLEN : Nat := 16

/-- Macro `NLMSG_LENGTH(len) = len + NLMSG_HDRLEN`. -/
def NLMSG_LENGTH (n : Nat) : Nat := n + NLMSG_HDRLEN

/-- Value of `sizeof(struct rtmsg)` (used by the encoder for the initial length). -/
def sizeof_rtmsg : Nat := 12

/-- Value of `sizeof(struct fib_rule_hdr)` (used by the notification handler). -/
def sizeof_fib_rule_hdr : Nat := 12

/-! ## Rule data model (`struct zebra_pbr_rule` and friends) -/

/-- Model of `struct prefix`: family, prefix length, and the address bytes of the
16-byte address union (reads beyond the written bytes see the zeroed
remainder of the union, modelled by zero-padding on read). -/
structure Pfx where
  family : Nat
  prefixlen : Nat
  addr : List Nat
deriving DecidableEq, Repr

/-- Read `n` bytes from the address union: written bytes first, the zeroed
remainder of the union after them. -/
def Pfx.readBytes (p : Pfx) (n : Nat) : List Nat :=
  List.takeD n p.addr 0

def Pfx.zero : Pfx := { family := 0, prefixlen := 0, addr := [] }

/-- The slice of `struct interface` this code uses: the name. -/
structure Iface where
  name : String
deriving DecidableEq, Repr

def PBR_FILTER_SRC_IP : Nat := 1
def PBR_FILTER_DST_IP : Nat := 2

structure PbrFilter where
  filter_bm : Nat
  src_ip : Pfx
  dst_ip : Pfx
deriving DecidableEq, Repr

structure PbrAction where
  table : Nat
deriving DecidableEq, Repr

structure ZebraPbrRule where
  priority : Nat
  ifp : Option Iface
  filter : PbrFilter
  action : PbrAction
deriving DecidableEq, Repr

def IS_RULE_FILTERING_ON_SRC_IP (r : ZebraPbrRule) : Bool :=
  r.filter.filter_bm &&& PBR_FILTER_SRC_IP != 0

def IS_RULE_FILTERING_ON_DST_IP (r : ZebraPbrRule) : Bool :=
  r.filter.filter_bm &&& PBR_FILTER_DST_IP != 0

/-- The all-zero rule produced by `memset(&rule, 0, sizeof(rule))`. -/
def zeroRule : ZebraPbrRule :=
  { priority := 0
    ifp := none
    filter := { filter_bm := 0, src_ip := Pfx.zero, dst_ip := Pfx.zero }
    action := { table := 0 } }

/-! ## Wire message model -/

/-- Payload of one netlink attribute. -/
inductive AttrPayload where
  | u32 (v : Nat)
  | bytes (bs : List Nat)
  | str (s : String)
deriving DecidableEq, Repr

/-- Payload length in bytes (`alen` passed to the attribute append helper):
4 for a 32-bit value, the byte count for raw bytes, `strlen + 1` for a
nul-terminated string. -/
def AttrPayload.len : AttrPayload → Nat
  | .u32 _ => 4
  | .bytes bs => bs.length
  | .str s => s.length + 1

structure RtAttr where
  typ : Nat
  payload : AttrPayload
deriving DecidableEq, Repr

/-- Model of `struct fib_rule_hdr`: the fields this code reads or writes. -/
structure FibRuleHdr where
  family : Nat
  dst_len : Nat
  src_len : Nat
  table : Nat
  action : Nat
deriving DecidableEq, Repr

/-- The request message: `struct nlmsghdr` fields used by the source, the
fixed rule header, and the appended attributes in order. -/
structure NlMessage where
  nlmsg_type : Nat
  nlmsg_len : Nat
  nlmsg_flags : Nat
  nlmsg_pid : Nat
  frh : FibRuleHdr
  attrs : List RtAttr
deriving DecidableEq, Repr

/-- Modelled from the spec: `addattr32` / `addattr_l` of
`zebra/kernel_netlink.c` (not under `src/`). Appends one type-tagged,
variable-length attribute and advances the aligned message length
(`nlmsg_len := NLMSG_ALIGN(nlmsg_len) + RTA_ALIGN(RTA_LENGTH(alen))`).
The reference bounds check against the generously sized `NL_PKT_BUF_SIZE`
buffer is unreachable for the bounded attribute set written here and is
not modelled. -/
def addattr (m : NlMessage) (t : Nat) (p : AttrPayload) : NlMessage :=
  { m with
    nlmsg_len := alignNl m.nlmsg_len + alignNl (4 + p.len)
    attrs := m.attrs ++ [{ typ := t, payload := p }] }

/-- First attribute of the given type, if any (`tb[t]`-style lookup). -/
def NlMessage.findAttr (m : NlMessage) (t : Nat) : Option AttrPayload :=
  (m.attrs.find? (fun a => a.typ == t)).map (fun a => a.payload)

/-! ## Encoder: `netlink_rule_update` (rule_netlink.c lines 54-128) -/

/-- Encoder `netlink_rule_update(cmd, rule)`: build the request message.
`pid` stands for `zns->netlink_cmd.snl.nl_pid`. The returned message is
what is handed to `netlink_talk`; the kernel round trip itself is a
parameter of the synchronizer below. -/
def netlink_rule_update (pid : Nat) (cmd : Nat) (rule : ZebraPbrRule) : NlMessage :=
  -- family = PREFIX_FAMILY(&rule->filter.src_ip)  (line 69)
  let family := rule.filter.src_ip.family
  let bytelen := if family = AF_INET then 4 else 16
  let req : NlMessage :=
    { nlmsg_type := cmd
      nlmsg_len := NLMSG_LENGTH sizeof_rtmsg
      nlmsg_flags := NLM_F_REQUEST
      nlmsg_pid := pid
      frh := { family := family, dst_len := 0, src_len := 0, table := 0
               action := FR_ACT_TO_TBL }
      attrs := [] }
  -- rule's pref #  (line 81)
  let req := addattr req FRA_PRIORITY (.u32 rule.priority)
  -- interface on which applied  (lines 84-86)
  let req :=
    match rule.ifp with
    | some ifp => addattr req FRA_IFNAME (.str ifp.name)
    | none => req
  -- source IP, if specified  (lines 89-93)
  let req :=
    if IS_RULE_FILTERING_ON_SRC_IP rule then
      addattr { req with frh := { req.frh with src_len := rule.filter.src_ip.prefixlen } }
        FRA_SRC (.bytes (rule.filter.src_ip.readBytes bytelen))
    else req
  -- destination IP, if specified  (lines 95-99)
  let req :=
    if IS_RULE_FILTERING_ON_DST_IP rule then
      addattr { req with frh := { req.frh with dst_len := rule.filter.dst_ip.prefixlen } }
        FRA_DST (.bytes (rule.filter.dst_ip.readBytes bytelen))
    else req
  -- route table to use to forward  (lines 101-108)
  if rule.action.table < 256 then
    { req with frh := { req.frh with table := rule.action.table } }
  else
    addattr { req with frh := { req.frh with table := RT_TABLE_UNSPEC } }
      FRA_TABLE (.u32 rule.action.table)

/-! ## Synchronizer: `kernel_add_pbr_rule` / `kernel_del_pbr_rule` -/

/-- The `SOUTHBOUND_*` status values reported to the owner. -/
inductive SouthboundStatus where
  | installSuccess
  | installFailure
  | deleteSuccess
  | deleteFailure
deriving DecidableEq, Repr

/-- Observable outcome of one synchronizer call: the message shipped to the
kernel channel and the status-callback invocations
(`kernel_pbr_rule_add_del_status` is owner code outside this source; its
invocations are recorded as events). -/
structure KernelRuleResult where
  sent : NlMessage
  status : List (ZebraPbrRule × SouthboundStatus)
deriving DecidableEq, Repr

/-- Synchronizer `kernel_add_pbr_rule` (lines 137-145). `talk` stands for the
`netlink_talk` kernel round trip (returns 0 on success). -/
def kernel_add_pbr_rule (pid : Nat) (talk : NlMessage → Int)
    (rule : ZebraPbrRule) : KernelRuleResult :=
  let msg := netlink_rule_update pid RTM_NEWRULE rule
  let ret := talk msg
  { sent := msg
    status := [(rule, if ret = 0 then SouthboundStatus.installSuccess
                      else SouthboundStatus.installFailure)] }

/-- Synchronizer `kernel_del_pbr_rule` (lines 150-158). -/
def kernel_del_pbr_rule (pid : Nat) (talk : NlMessage → Int)
    (rule : ZebraPbrRule) : KernelRuleResult :=
  let msg := netlink_rule_update pid RTM_DELRULE rule
  let ret := talk msg
  { sent := msg
    status := [(rule, if ret = 0 then SouthboundStatus.deleteSuccess
                      else SouthboundStatus.deleteFailure)] }

/-! ## Notification handler: `netlink_rule_change` (lines 167-253) -/

/-- Modelled from the spec: the attribute table `tb[FRA_MAX + 1]` filled by
`netlink_parse_rtattr` of `zebra/kernel_netlink.c` (not under `src/`): the
parsed, type-tagged attributes of a notification, each independently
optional. Only the attribute types this handler reads are modelled. -/
structure RtAttrTable where
  priority : Option Nat
  ifname : Option String
  src : Option (List Nat)
  dst : Option (List Nat)
  table : Option Nat
deriving DecidableEq, Repr

/-- An inbound notification: `struct nlmsghdr` type and declared length,
the fixed rule header behind it, and its parsed attribute table. -/
structure NlNotif where
  nlmsg_type : Nat
  nlmsg_len : Nat
  frh : FibRuleHdr
  tb : RtAttrTable
deriving DecidableEq, Repr

/-- Lines 211-240: build the transient rule handed to the deletion
callback. The `memset(&rule, 0, sizeof(rule))` at line 211 runs after the
interface lookup was stored into `rule.ifp` at line 207, so the struct is
re-zeroed and the decoded rule carries `ifp = none`. The decode also never
assigns `src_ip.family` / `dst_ip.family`; they stay 0 from the memset. -/
def decodedDelRule (h : NlNotif) : ZebraPbrRule :=
  let rule := zeroRule
  let rule :=
    match h.tb.priority with
    | some p => { rule with priority := p }
    | none => rule
  let rule :=
    match h.tb.src with
    | some bs =>
      { rule with filter :=
          { rule.filter with
            src_ip := { family := rule.filter.src_ip.family
                        prefixlen := h.frh.src_len
                        addr := List.takeD (if h.frh.family = AF_INET then 4 else 16) bs 0 }
            filter_bm := rule.filter.filter_bm ||| PBR_FILTER_SRC_IP } }
    | none => rule
  let rule :=
    match h.tb.dst with
    | some bs =>
      { rule with filter :=
          { rule.filter with
            dst_ip := { family := rule.filter.dst_ip.family
                        prefixlen := h.frh.dst_len
                        addr := List.takeD (if h.frh.family = AF_INET then 4 else 16) bs 0 }
            filter_bm := rule.filter.filter_bm ||| PBR_FILTER_DST_IP } }
    | none => rule
  { rule with action :=
      { rule.action with
        table := match h.tb.table with
                 | some t => t
                 | none => h.frh.table } }

/-- Handler `netlink_rule_change(snl, h, ns_id, startup)`.
`lookupIf` stands for `if_lookup_by_name_per_ns` on the namespace resolved
from `ns_id`; `del` stands for the owner's deletion callback
`kernel_pbr_rule_del` (outside this source), whose invocations are
recorded in the second component. Returns the handler's `int` result and
the list of deletion-callback invocations. -/
def netlink_rule_change (lookupIf : String → Option Iface)
    (del : ZebraPbrRule → Int) (h : NlNotif) : Int × List ZebraPbrRule :=
  -- basic validation  (lines 180-181)
  if ¬ (h.nlmsg_type = RTM_NEWRULE ∨ h.nlmsg_type = RTM_DELRULE) then (0, [])
  -- TBD  (lines 184-185)
  else if h.nlmsg_type = RTM_NEWRULE then (0, [])
  -- len = h->nlmsg_len - NLMSG_LENGTH(sizeof(struct fib_rule_hdr))  (187-189)
  else if (h.nlmsg_len : Int) - (NLMSG_LENGTH sizeof_fib_rule_hdr : Int) < 0 then (-1, [])
  -- family filter  (lines 192-193)
  else if ¬ (h.frh.family = AF_INET ∨ h.frh.family = AF_INET6) then (0, [])
  -- action filter  (lines 194-195)
  else if ¬ h.frh.action = FR_ACT_TO_TBL then (0, [])
  else
    -- IFNAME attribute required  (lines 201-202)
    match h.tb.ifname with
    | none => (0, [])
    | some ifname =>
      -- interface must be known  (lines 205-209)
      match lookupIf ifname with
      | none => (0, [])
      | some _ifp =>
        -- decode (incl. the re-zeroing memset) and notify up  (211-252)
        (del (decodedDelRule h), [decodedDelRule h])

/-! ## Helper predicates and lemmas -/

/-- A notification rejected by one of the interest filters of the handler:
either it is not a delete-rule notification, or (once the length check has
been passed) its family is not IPv4/IPv6, or its action is not
route-to-table, or it carries no interface-name attribute, or the named
interface is unknown. -/
def dropsSilently (lookupIf : String → Option Iface) (h : NlNotif) : Prop :=
  h.nlmsg_type ≠ RTM_DELRULE
  ∨ (NLMSG_LENGTH sizeof_fib_rule_hdr ≤ h.nlmsg_len ∧
      (¬ (h.frh.family = AF_INET ∨ h.frh.family = AF_INET6)
       ∨ h.frh.action ≠ FR_ACT_TO_TBL
       ∨ h.tb.ifname = none
       ∨ ∃ nm, h.tb.ifname = some nm ∧ lookupIf nm = none))

instance (lookupIf : String → Option Iface) (h : NlNotif) :
    Decidable (dropsSilently lookupIf h) := by
  unfold dropsSilently
  have : Decidable (∃ nm, h.tb.ifname = some nm ∧ lookupIf nm = none) := by
    rcases hnm : h.tb.ifname with _ | nm
    · exact .isFalse (by simp [hnm])
    · exact decidable_of_iff (lookupIf nm = none) (by simp [hnm])
  exact inferInstance

/-- Case analysis on the notification handler: every run either drops the
message silently (result 0, no callback) because an interest filter
rejected it, or surfaces the negative-length error (result -1, no
callback), or passes every filter and invokes the deletion callback
exactly once with the decoded rule. -/
lemma netlink_rule_change_cases (lookupIf : String → Option Iface)
    (del : ZebraPbrRule → Int) (h : NlNotif) :
    (netlink_rule_change lookupIf del h = (0, []) ∧ dropsSilently lookupIf h)
    ∨ (netlink_rule_change lookupIf del h = (-1, [])
        ∧ h.nlmsg_type = RTM_DELRULE
        ∧ h.nlmsg_len < NLMSG_LENGTH sizeof_fib_rule_hdr)
    ∨ (netlink_rule_change lookupIf del h
          = (del (decodedDelRule h), [decodedDelRule h])
        ∧ h.nlmsg_type = RTM_DELRULE
        ∧ NLMSG_LENGTH sizeof_fib_rule_hdr ≤ h.nlmsg_len
        ∧ (h.frh.family = AF_INET ∨ h.frh.family = AF_INET6)
        ∧ h.frh.action = FR_ACT_TO_TBL
        ∧ ∃ nm, h.tb.ifname = some nm ∧ (lookupIf nm).isSome = true) := by
  unfold netlink_rule_change
  by_cases h1 : h.nlmsg_type = RTM_NEWRULE ∨ h.nlmsg_type = RTM_DELRULE
  · rw [if_neg (not_not_intro h1)]
    by_cases h2 : h.nlmsg_type = RTM_NEWRULE
    · rw [if_pos h2]
      refine Or.inl ⟨rfl, Or.inl ?_⟩
      rw [h2]; decide
    · rw [if_neg h2]
      have hdel : h.nlmsg_type = RTM_DELRULE := h1.resolve_left h2
      by_cases h3 : (h.nlmsg_len : Int) - (NLMSG_LENGTH sizeof_fib_rule_hdr : Int) < 0
      · rw [if_pos h3]
        exact Or.inr (Or.inl ⟨rfl, hdel, by omega⟩)
      · rw [if_neg h3]
        have hlen : NLMSG_LENGTH sizeof_fib_rule_hdr ≤ h.nlmsg_len := by omega
        by_cases h4 : h.frh.family = AF_INET ∨ h.frh.family = AF_INET6
        · rw [if_neg (not_not_intro h4)]
          by_cases h5 : h.frh.action = FR_ACT_TO_TBL
          · rw [if_neg (not_not_intro h5)]
            rcases hnm : h.tb.ifname with _ | nm
            · exact Or.inl ⟨by simp [hnm], Or.inr ⟨hlen, Or.inr (Or.inr (Or.inl hnm))⟩⟩
            · rcases hlk : lookupIf nm with _ | ifp
              · exact Or.inl ⟨by simp [hnm, hlk], Or.inr ⟨hlen,
                  Or.inr (Or.inr (Or.inr ⟨nm, hnm, hlk⟩))⟩⟩
              · exact Or.inr (Or.inr ⟨by simp [hnm, hlk], hdel, hlen, h4, h5,
                  nm, rfl, by rw [hlk]; rfl⟩)
          · rw [if_pos h5]
            exact Or.inl ⟨rfl, Or.inr ⟨hlen, Or.inr (Or.inl h5)⟩⟩
        · rw [if_pos h4]
          exact Or.inl ⟨rfl, Or.inr ⟨hlen, Or.inl h4⟩⟩
  · rw [if_pos h1]
    exact Or.inl ⟨rfl, Or.inl (fun hd => h1 (Or.inr hd))⟩

/-- The encoder writes the requested operation code into `nlmsg_type` and
nothing later overwrites it. -/
lemma netlink_rule_update_type (pid cmd : Nat) (rule : ZebraPbrRule) :
    (netlink_rule_update pid cmd rule).nlmsg_type = cmd := by
  unfold netlink_rule_update
  cases hif : rule.ifp <;>
  cases hsrc : IS_RULE_FILTERING_ON_SRC_IP rule <;>
  cases hdst : IS_RULE_FILTERING_ON_DST_IP rule <;>
  by_cases ht : rule.action.table < 256 <;>
  simp [addattr, hif, hsrc, hdst, ht]

/-! ## Claim theorems -/

/-- Claim C1: for every rule and either operation, the encoder obeys the
dual table-encoding rule: a table id below 256 goes directly into the
1-byte header table field and no TABLE attribute is written; a table id of
256 or more leaves the header table field at the unspecified sentinel and
is carried in full in a 4-byte TABLE attribute. -/
theorem C1_table_encoding (pid cmd : Nat) (rule : ZebraPbrRule) :
    (netlink_rule_update pid cmd rule).frh.table
        = (if rule.action.table < 256 then rule.action.table else RT_TABLE_UNSPEC)
    ∧ (netlink_rule_update pid cmd rule).findAttr FRA_TABLE
        = (if rule.action.table < 256 then none
           else some (AttrPayload.u32 rule.action.table)) := by
  unfold netlink_rule_update
  cases hif : rule.ifp <;>
  cases hsrc : IS_RULE_FILTERING_ON_SRC_IP rule <;>
  cases hdst : IS_RULE_FILTERING_ON_DST_IP rule <;>
  by_cases ht : rule.action.table < 256 <;>
  simp [addattr, NlMessage.findAttr, hif, hsrc, hdst, ht,
    FRA_PRIORITY, FRA_IFNAME, FRA_SRC, FRA_DST, FRA_TABLE, RT_TABLE_UNSPEC]

/-- Claim C6: for every rule and either operation, the encoded message
carries a PRIORITY attribute whose 4-byte value is exactly
`rule.priority`. -/
theorem C6_priority_always (pid cmd : Nat) (rule : ZebraPbrRule) :
    (netlink_rule_update pid cmd rule).findAttr FRA_PRIORITY
      = some (AttrPayload.u32 rule.priority) := by
  unfold netlink_rule_update
  cases hif : rule.ifp <;>
  cases hsrc : IS_RULE_FILTERING_ON_SRC_IP rule <;>
  cases hdst : IS_RULE_FILTERING_ON_DST_IP rule <;>
  by_cases ht : rule.action.table < 256 <;>
  simp [addattr, NlMessage.findAttr, hif, hsrc, hdst, ht,
    FRA_PRIORITY, FRA_IFNAME, FRA_SRC, FRA_DST, FRA_TABLE]

/-- A rule with no source filter (its `src_ip` left zeroed, family
unspecified) but an IPv6 destination filter: exercises the encoder's
family derivation when only `dst` is present. -/
def dstOnlyRule : ZebraPbrRule :=
  { priority := 10
    ifp := none
    filter := { filter_bm := PBR_FILTER_DST_IP
                src_ip := Pfx.zero
                dst_ip := { family := AF_INET6, prefixlen := 64
                            addr := [0x20, 0x01, 0x0d, 0xb8, 0, 0, 0, 0,
                                     0, 0, 0, 0, 0, 0, 0, 0] } }
    action := { table := 100 } }

/-- Claim C7 counterexample: the claim says that when `src` is absent the
header family equals the family of `rule.filter.dst`. On `dstOnlyRule`
(no source filter, IPv6 destination filter) the encoder writes family 0
(the zeroed `src_ip`'s family), not the destination's family: the encoder
takes the family from `rule->filter.src_ip` unconditionally (line 69) and
never falls back to `dst`. -/
theorem C7_counterexample :
    IS_RULE_FILTERING_ON_SRC_IP dstOnlyRule = false
    ∧ IS_RULE_FILTERING_ON_DST_IP dstOnlyRule = true
    ∧ dstOnlyRule.filter.dst_ip.family = AF_INET6
    ∧ (netlink_rule_update 0 RTM_NEWRULE dstOnlyRule).frh.family = 0
    ∧ (netlink_rule_update 0 RTM_NEWRULE dstOnlyRule).frh.family
        ≠ dstOnlyRule.filter.dst_ip.family := by decide

/-- Claim C7 (amended): for every rule and either operation, the address
family written into the encoded header equals the family field of
`rule.filter.src_ip`, unconditionally — there is no fallback to the
destination's family when the source filter is absent. -/
theorem C7_header_family (pid cmd : Nat) (rule : ZebraPbrRule) :
    (netlink_rule_update pid cmd rule).frh.family
      = rule.filter.src_ip.family := by
  unfold netlink_rule_update
  cases hif : rule.ifp <;>
  cases hsrc : IS_RULE_FILTERING_ON_SRC_IP rule <;>
  cases hdst : IS_RULE_FILTERING_ON_DST_IP rule <;>
  by_cases ht : rule.action.table < 256 <;>
  simp [addattr, hif, hsrc, hdst, ht]

/-- Claim C8: for every rule, the messages encoded for Add and for Delete
agree on every header field and on the whole attribute list; they differ
only in the operation code (`nlmsg_type`). -/
theorem C8_add_del_same (pid : Nat) (rule : ZebraPbrRule) :
    netlink_rule_update pid RTM_DELRULE rule
      = { netlink_rule_update pid RTM_NEWRULE rule with nlmsg_type := RTM_DELRULE }
    ∧ (netlink_rule_update pid RTM_NEWRULE rule).nlmsg_type = RTM_NEWRULE
    ∧ (netlink_rule_update pid RTM_DELRULE rule).nlmsg_type = RTM_DELRULE := by
  unfold netlink_rule_update
  cases hif : rule.ifp <;>
  cases hsrc : IS_RULE_FILTERING_ON_SRC_IP rule <;>
  cases hdst : IS_RULE_FILTERING_ON_DST_IP rule <;>
  by_cases ht : rule.action.table < 256 <;>
  simp [addattr, hif, hsrc, hdst, ht]

/-- Claim C3: `install(rule)` ships the Add-operation message to the
kernel channel and invokes the owner's status callback exactly once,
with InstallSuccess exactly when the channel reports success (returns 0)
and InstallFailure otherwise; `uninstall(rule)` is symmetric with the
Delete operation and DeleteSuccess/DeleteFailure. -/
theorem C3_sync_status (pid : Nat) (talk : NlMessage → Int) (rule : ZebraPbrRule) :
    (kernel_add_pbr_rule pid talk rule).sent.nlmsg_type = RTM_NEWRULE
    ∧ (kernel_add_pbr_rule pid talk rule).status
        = [(rule, if talk (netlink_rule_update pid RTM_NEWRULE rule) = 0
                  then SouthboundStatus.installSuccess
                  else SouthboundStatus.installFailure)]
    ∧ (kernel_del_pbr_rule pid talk rule).sent.nlmsg_type = RTM_DELRULE
    ∧ (kernel_del_pbr_rule pid talk rule).status
        = [(rule, if talk (netlink_rule_update pid RTM_DELRULE rule) = 0
                  then SouthboundStatus.deleteSuccess
                  else SouthboundStatus.deleteFailure)] := by
  exact ⟨netlink_rule_update_type pid RTM_NEWRULE rule, rfl,
         netlink_rule_update_type pid RTM_DELRULE rule, rfl⟩

/-! ## Concrete notification inputs and environments -/

/-- An environment in which exactly the interface named `eth0` is known. -/
def knownLookup : String → Option Iface :=
  fun s => if s = "eth0" then some { name := "eth0" } else none

def eth0If : Iface := { name := "eth0" }

/-- An add-rule notification (for the rule-add scope-limitation claims). -/
def addNotif : NlNotif :=
  { nlmsg_type := RTM_NEWRULE
    nlmsg_len := 100
    frh := { family := AF_INET, dst_len := 0, src_len := 0, table := 5
             action := FR_ACT_TO_TBL }
    tb := { priority := some 7, ifname := some "eth0", src := none
            dst := none, table := none } }

/-- A delete-rule notification passing every interest filter. -/
def passNotif : NlNotif :=
  { nlmsg_type := RTM_DELRULE
    nlmsg_len := 64
    frh := { family := AF_INET, dst_len := 0, src_len := 24, table := 254
             action := FR_ACT_TO_TBL }
    tb := { priority := some 7, ifname := some "eth0", src := some [10, 0, 0, 0]
            dst := none, table := none } }

/-- A delete-rule notification with a family that is neither IPv4 nor
IPv6. -/
def wrongFamilyNotif : NlNotif :=
  { nlmsg_type := RTM_DELRULE
    nlmsg_len := 64
    frh := { family := 7, dst_len := 0, src_len := 0, table := 254
             action := FR_ACT_TO_TBL }
    tb := { priority := none, ifname := some "eth0", src := none
            dst := none, table := none } }

/-- A delete-rule notification passing every filter, carrying a 4-byte
TABLE attribute (table id 1000, above the 1-byte header range). -/
def tblNotif : NlNotif :=
  { nlmsg_type := RTM_DELRULE
    nlmsg_len := 72
    frh := { family := AF_INET6, dst_len := 0, src_len := 0, table := 0
             action := FR_ACT_TO_TBL }
    tb := { priority := some 9, ifname := some "eth0", src := none
            dst := none, table := some 1000 } }

/-- A delete-rule notification whose declared length is smaller than the
fixed headers (nlmsg_len 20 < 28). -/
def shortNotif : NlNotif :=
  { nlmsg_type := RTM_DELRULE
    nlmsg_len := 20
    frh := { family := AF_INET, dst_len := 0, src_len := 0, table := 254
             action := FR_ACT_TO_TBL }
    tb := { priority := none, ifname := some "eth0", src := none
            dst := none, table := none } }

/-- The end-to-end delete notification of claim C2: known interface eth0,
SRC = 10.0.0.0/24, no DST, TABLE attribute absent, header table 254. -/
def delEth0Notif : NlNotif :=
  { nlmsg_type := RTM_DELRULE
    nlmsg_len := 56
    frh := { family := AF_INET, dst_len := 0, src_len := 24, table := 254
             action := FR_ACT_TO_TBL }
    tb := { priority := none, ifname := some "eth0", src := some [10, 0, 0, 0]
            dst := none, table := none } }

/-- Claim C5: an add-rule notification is dropped before any decoding:
result 0, and the deletion callback is never invoked. -/
theorem C5_add_ignored (lookupIf : String → Option Iface)
    (del : ZebraPbrRule → Int) (h : NlNotif)
    (hadd : h.nlmsg_type = RTM_NEWRULE) :
    netlink_rule_change lookupIf del h = (0, []) := by
  unfold netlink_rule_change
  rw [if_neg (not_not_intro (Or.inl hadd)), if_pos hadd]

/-- Claim C5 witness: the concrete add-rule notification is dropped. -/
theorem C5_add_ignored_witness :
    netlink_rule_change knownLookup (fun _ => 0) addNotif = (0, []) :=
  C5_add_ignored knownLookup (fun _ => 0) addNotif rfl

/-- Claim C4: the deletion callback is invoked only for a delete-rule
notification whose family is IPv4 or IPv6, whose action is
route-to-table, which carries an IFNAME attribute naming a known
interface; and a notification failing one of these interest filters is
silently dropped: result 0 (success), no callback, no error surfaced. -/
theorem C4_filter_policy (lookupIf : String → Option Iface)
    (del : ZebraPbrRule → Int) (h : NlNotif) :
    ((netlink_rule_change lookupIf del h).2 ≠ [] →
        h.nlmsg_type = RTM_DELRULE
        ∧ (h.frh.family = AF_INET ∨ h.frh.family = AF_INET6)
        ∧ h.frh.action = FR_ACT_TO_TBL
        ∧ ∃ nm, h.tb.ifname = some nm ∧ (lookupIf nm).isSome = true)
    ∧ (dropsSilently lookupIf h →
        netlink_rule_change lookupIf del h = (0, [])) := by
  rcases netlink_rule_change_cases lookupIf del h with
    ⟨heq, _⟩ | ⟨heq, hdel, hshort⟩ | ⟨heq, hdel, hlen, hfam, hact, nm, hnm, hlk⟩
  · exact ⟨fun hne => absurd (by rw [heq]) hne, fun _ => heq⟩
  · constructor
    · intro hne; rw [heq] at hne; simp at hne
    · intro hd
      rcases hd with hne | ⟨hge, _⟩
      · exact absurd hdel hne
      · exfalso; omega
  · constructor
    · intro _; exact ⟨hdel, hfam, hact, nm, hnm, hlk⟩
    · intro hd; exfalso
      rcases hd with hne | ⟨_, hf | ha | hn | ⟨nm', hnm', hlk'⟩⟩
      · exact hne hdel
      · exact hf hfam
      · exact ha hact
      · rw [hnm] at hn; cases hn
      · rw [hnm] at hnm'; injection hnm' with hh; subst hh
        rw [hlk'] at hlk; cases hlk

/-- Claim C4 witness: a notification passing every filter does invoke the
callback and satisfies all filter conditions; the wrong-family
notification is silently dropped with result 0 and no callback. -/
theorem C4_filter_policy_witness :
    (passNotif.nlmsg_type = RTM_DELRULE
      ∧ (passNotif.frh.family = AF_INET ∨ passNotif.frh.family = AF_INET6)
      ∧ passNotif.frh.action = FR_ACT_TO_TBL
      ∧ ∃ nm, passNotif.tb.ifname = some nm ∧ (knownLookup nm).isSome = true)
    ∧ netlink_rule_change knownLookup (fun _ => 0) wrongFamilyNotif = (0, []) :=
  ⟨(C4_filter_policy knownLookup (fun _ => 0) passNotif).1 (by decide),
   (C4_filter_policy knownLookup (fun _ => 0) wrongFamilyNotif).2 (by decide)⟩

/-- The decoded rule's table: from the TABLE attribute when present, else
from the 1-byte header table field (lines 237-240). -/
lemma decodedDelRule_table (h : NlNotif) :
    (decodedDelRule h).action.table
      = (match h.tb.table with | some t => t | none => h.frh.table) := by
  unfold decodedDelRule
  cases hp : h.tb.priority <;> cases hs : h.tb.src <;>
  cases hd : h.tb.dst <;> cases ht : h.tb.table <;> simp [hp, hs, hd, ht]

/-- Claim C9: for every delete-rule notification passing every interest
filter, the rule handed to the deletion callback carries as its
action.table the 32-bit TABLE attribute when present, and otherwise the
1-byte header table field. -/
theorem C9_table_fallback (lookupIf : String → Option Iface)
    (del : ZebraPbrRule → Int) (h : NlNotif)
    (hdel : h.nlmsg_type = RTM_DELRULE)
    (hlen : NLMSG_LENGTH sizeof_fib_rule_hdr ≤ h.nlmsg_len)
    (hfam : h.frh.family = AF_INET ∨ h.frh.family = AF_INET6)
    (hact : h.frh.action = FR_ACT_TO_TBL)
    (nm : String) (hnm : h.tb.ifname = some nm)
    (hlk : (lookupIf nm).isSome = true) :
    (netlink_rule_change lookupIf del h).2.map (fun r => r.action.table)
      = [(match h.tb.table with | some t => t | none => h.frh.table)] := by
  rcases netlink_rule_change_cases lookupIf del h with
    ⟨_, hdrop⟩ | ⟨_, _, hshort⟩ | ⟨heq, _⟩
  · exfalso
    rcases hdrop with hne | ⟨_, hf | ha | hn | ⟨nm', hnm', hlk'⟩⟩
    · exact hne hdel
    · exact hf hfam
    · exact ha hact
    · rw [hnm] at hn; cases hn
    · rw [hnm] at hnm'; injection hnm' with hh; subst hh
      rw [hlk'] at hlk; cases hlk
  · exfalso; omega
  · rw [heq]
    simp [decodedDelRule_table]

/-- Claim C9 witness: with the TABLE attribute present the callback rule
carries the attribute value 1000; with it absent it carries the header
field 254. -/
theorem C9_table_fallback_witness :
    (netlink_rule_change knownLookup (fun _ => 0) tblNotif).2.map
        (fun r => r.action.table) = [1000]
    ∧ (netlink_rule_change knownLookup (fun _ => 0) passNotif).2.map
        (fun r => r.action.table) = [254] :=
  ⟨C9_table_fallback knownLookup (fun _ => 0) tblNotif rfl (by decide)
      (Or.inr rfl) rfl "eth0" rfl (by decide),
   C9_table_fallback knownLookup (fun _ => 0) passNotif rfl (by decide)
      (Or.inl rfl) rfl "eth0" rfl (by decide)⟩

/-- Claim C10: a delete-rule notification whose declared message length is
smaller than the fixed headers (so the computed attribute-payload length
is negative) makes the handler return -1 with no callback; and this is the
only condition under which the handler ends with result -1 and no
callback — every other no-callback path returns 0. -/
theorem C10_short_msg_error (lookupIf : String → Option Iface)
    (del : ZebraPbrRule → Int) (h : NlNotif) :
    (h.nlmsg_type = RTM_DELRULE →
      h.nlmsg_len < NLMSG_LENGTH sizeof_fib_rule_hdr →
      netlink_rule_change lookupIf del h = (-1, []))
    ∧ ((netlink_rule_change lookupIf del h).1 = -1 →
        (netlink_rule_change lookupIf del h).2 = [] →
        h.nlmsg_type = RTM_DELRULE
        ∧ h.nlmsg_len < NLMSG_LENGTH sizeof_fib_rule_hdr) := by
  rcases netlink_rule_change_cases lookupIf del h with
    ⟨heq, hdrop⟩ | ⟨heq, hdel, hshort⟩ | ⟨heq, _, hlen, _⟩
  · constructor
    · intro hdel hshort
      rcases hdrop with hne | ⟨hge, _⟩
      · exact absurd hdel hne
      · exfalso; omega
    · intro h1 _; rw [heq] at h1; simp at h1
  · exact ⟨fun _ _ => heq, fun _ _ => ⟨hdel, hshort⟩⟩
  · constructor
    · intro _ hshort; exfalso; omega
    · intro _ h2; rw [heq] at h2; simp at h2

/-- Claim C10 witness: on the concrete short delete notification the
handler returns -1 with no callback, and conversely that outcome implies
the notification was a short delete. -/
theorem C10_short_msg_error_witness :
    netlink_rule_change knownLookup (fun _ => 0) shortNotif = (-1, [])
    ∧ (shortNotif.nlmsg_type = RTM_DELRULE
        ∧ shortNotif.nlmsg_len < NLMSG_LENGTH sizeof_fib_rule_hdr) :=
  ⟨(C10_short_msg_error knownLookup (fun _ => 0) shortNotif).1 rfl (by decide),
   (C10_short_msg_error knownLookup (fun _ => 0) shortNotif).2
      (by decide) (by decide)⟩

/-- Claim C2 (code bug): the end-to-end delete notification (known
interface eth0, SRC 10.0.0.0/24, no DST, TABLE absent, header table 254)
triggers exactly one deletion-callback invocation, and the rule it
carries has src 10.0.0.0/24, no dst and table 254 — but its interface is
`none`, not eth0: the `memset(&rule, 0, sizeof(rule))` at line 211 runs
after the interface lookup was stored at line 207 and wipes it (the debug
branch at line 246 would dereference that cleared pointer). -/
theorem C2_memset_clears_ifp :
    netlink_rule_change knownLookup (fun _ => 0) delEth0Notif
      = (0, [{ priority := 0
               ifp := none
               filter := { filter_bm := PBR_FILTER_SRC_IP
                           src_ip := { family := 0, prefixlen := 24
                                       addr := [10, 0, 0, 0] }
                           dst_ip := Pfx.zero }
               action := { table := 254 } }])
    ∧ (∀ r ∈ (netlink_rule_change knownLookup (fun _ => 0) delEth0Notif).2,
        r.ifp ≠ some eth0If) := by decide
